import Mathlib

/-!
Verification of the Video Translation Tool (autotranslate.py / app.py).

Strings are shallowly embedded as lists of Unicode code points (`List Nat`);
Python `str.lower()` is modelled code-point-wise.  Each external collaborator
(media engine, transcription, translation, synthesis, remux) is an oracle
parameter recording whether its call succeeds.  Process termination via
`sys.exit(1)` is a distinguished outcome, not an exception.
-/

namespace Autotranslate

/-- Code points of a string literal (embedding of a Python `str`). -/
def cp (s : String) : List Nat := s.data.map Char.toNat

/-- Code-point-wise lowering, the model of Python `str.lower()` applied to
one character (ASCII uppercase letters map to lowercase; everything else is
left unchanged). -/
def lowerCp (n : Nat) : Nat := if 65 ≤ n ∧ n ≤ 90 then n + 32 else n

/-- Model of Python `s.startswith(pat)`: `startsWithCp pat s` is true when
`s` begins with `pat`. -/
def startsWithCp : List Nat → List Nat → Bool
  | [], _ => true
  | _ :: _, [] => false
  | p :: ps, c :: cs => decide (p = c) && startsWithCp ps cs

/-- Embedding of line 102 of autotranslate.py:
`lang_code = target_language[:2].lower() if len(target_language) >= 2 else target_language.lower()`. -/
def normalizeLang (t : List Nat) : List Nat :=
  if 2 ≤ t.length then (t.take 2).map lowerCp else t.map lowerCp

/-- The static voice table of `generate_audio` (lines 83-99). -/
def voice_map : List (List Nat × List Nat) :=
  [ (cp ("en"), cp ("en-US-AriaNeural")),
    (cp ("es"), cp ("es-ES-ElviraNeural")),
    (cp ("fr"), cp ("fr-FR-DeniseNeural")),
    (cp ("de"), cp ("de-DE-KatjaNeural")),
    (cp ("it"), cp ("it-IT-ElsaNeural")),
    (cp ("pt"), cp ("pt-BR-FranciscaNeural")),
    (cp ("ru"), cp ("ru-RU-SvetlanaNeural")),
    (cp ("ja"), cp ("ja-JP-NanamiNeural")),
    (cp ("ko"), cp ("ko-KR-SunHiNeural")),
    (cp ("zh"), cp ("zh-CN-XiaoxiaoNeural")),
    (cp ("ar"), cp ("ar-SA-ZariyahNeural")),
    (cp ("hi"), cp ("hi-IN-SwaraNeural")),
    (cp ("nl"), cp ("nl-NL-ColetteNeural")),
    (cp ("pl"), cp ("pl-PL-AgnieszkaNeural")),
    (cp ("tr"), cp ("tr-TR-EmelNeural")) ]

/-- Python `dict` lookup (`voice_map.get` / `in voice_map`). -/
def vmLookup (k : List Nat) : List (List Nat × List Nat) → Option (List Nat)
  | [] => none
  | p :: rest => if k = p.1 then some p.2 else vmLookup k rest

/-- One entry of the Edge TTS catalog returned by `edge_tts.list_voices()`:
its `Locale` and `ShortName` fields. -/
structure VoiceEntry where
  locale : List Nat
  shortName : List Nat
  deriving DecidableEq, Repr

/-- Result of the voice-resolution logic of `generate_audio` (lines 101-118):
the chosen voice, how many times the catalog was fetched, and whether the
default-English-voice warning was printed. -/
structure ResolveResult where
  voice : List Nat
  catalogFetches : Nat
  warned : Bool
  deriving DecidableEq, Repr

/-- The fixed fallback voice `"en-US-AriaNeural"` (line 105). -/
def defaultVoice : List Nat := cp ("en-US-AriaNeural")

/-- Embedding of the voice-resolution logic of `generate_audio`
(autotranslate.py lines 101-118).  `catalog` is the list that
`edge_tts.list_voices()` would return. -/
def resolveVoice (catalog : List VoiceEntry) (target : List Nat) : ResolveResult :=
  let lang := normalizeLang target
  let voice := (vmLookup lang voice_map).getD defaultVoice
  if voice = defaultVoice ∧ vmLookup lang voice_map = none then
    match catalog.filter (fun v => startsWithCp lang v.locale) with
    | m :: _ => ⟨m.shortName, 1, false⟩
    | [] => ⟨defaultVoice, 1, true⟩
  else ⟨voice, 0, false⟩

/-- The five pipeline stages of `translate_video`. -/
inductive Stage
  | extract
  | transcribe
  | translate
  | synthesize
  | remux
  deriving DecidableEq, Repr

/-- The canonical stage order of the pipeline. -/
def canonicalStages : List Stage :=
  [Stage.extract, Stage.transcribe, Stage.translate, Stage.synthesize, Stage.remux]

/-- How a call to `translate_video` (or the app's processing block) ends:
normal return, an error shown to the user (app only), or process
termination via `sys.exit`. -/
inductive RunOutcome
  | success
  | errorShown
  | procExit (code : Nat)
  deriving DecidableEq, Repr

/-- Success/failure of each external collaborator call made during one run
of `translate_video`.  `loadOk` is the outcome of `whisper.load_model`,
the rest are the five stage collaborators. -/
structure PipeOracle where
  loadOk : Bool
  extractOk : Bool
  transcribeOk : Bool
  translateOk : Bool
  synthOk : Bool
  remuxOk : Bool
  deriving DecidableEq, Repr

/-- Observable result of one run of `translate_video`: how many times
`load_model` was called, which stages were started (in order), whether the
temporary directory still exists on disk when the run ends, and the
outcome. -/
structure RunResult where
  loadCalls : Nat
  stages : List Stage
  tempDirExists : Bool
  outcome : RunOutcome
  deriving DecidableEq, Repr

/-- Embedding of `VideoTranslator.translate_video` (autotranslate.py lines
149-189).  The temp directory is created first (`tempfile.mkdtemp`); if the
model is not loaded it is loaded in place (lines 157-158); the five stages
run in sequence; any exception is caught by the `except` block which prints
and calls `sys.exit(1)` without removing the temp directory
(`translate_text` failure calls `sys.exit(1)` directly, with the same
observable effect); `shutil.rmtree` runs only after all stages succeed
(line 181). -/
def translate_video (o : PipeOracle) (modelLoaded : Bool) : RunResult :=
  let lc : Nat := if modelLoaded then 0 else 1
  if modelLoaded = false ∧ o.loadOk = false then
    ⟨lc, [], true, RunOutcome.procExit 1⟩
  else if o.extractOk = false then
    ⟨lc, [Stage.extract], true, RunOutcome.procExit 1⟩
  else if o.transcribeOk = false then
    ⟨lc, [Stage.extract, Stage.transcribe], true, RunOutcome.procExit 1⟩
  else if o.translateOk = false then
    ⟨lc, [Stage.extract, Stage.transcribe, Stage.translate], true, RunOutcome.procExit 1⟩
  else if o.synthOk = false then
    ⟨lc, [Stage.extract, Stage.transcribe, Stage.translate, Stage.synthesize], true,
      RunOutcome.procExit 1⟩
  else if o.remuxOk = false then
    ⟨lc, canonicalStages, true, RunOutcome.procExit 1⟩
  else
    ⟨lc, canonicalStages, false, RunOutcome.success⟩

/-- Python exception values relevant to the cleanup path. -/
inductive PyErr
  | fileNotFoundError
  deriving DecidableEq, Repr

/-- Model of `shutil.rmtree(path)` with its default arguments
(`ignore_errors=False`, no `onerror` handler), as called on the temporary
directory at autotranslate.py line 181: given whether the directory
currently exists, it either deletes it (returning the new existence state,
`false`) or raises `FileNotFoundError` when the path does not exist. -/
def shutilRmtree (dirExists : Bool) : Except PyErr Bool :=
  if dirExists then Except.ok false else Except.error PyErr.fileNotFoundError

/-- Success/failure of each collaborator call made by the app.py
processing block, plus whether the output file exists at the final check
(app.py line 259). -/
structure AppOracle where
  extractOk : Bool
  transcribeOk : Bool
  translateOk : Bool
  synthOk : Bool
  remuxOk : Bool
  outputFileExists : Bool
  deriving DecidableEq, Repr

/-- Observable result of the app.py translation processing block: the
values passed to `progress_bar.progress(...)` in order, and the outcome. -/
structure AppResult where
  progressUpdates : List Nat
  outcome : RunOutcome
  deriving DecidableEq, Repr

/-- Embedding of the app.py translation processing block (lines 206-295).
Each stage is preceded by a `progress_bar.progress(v)` update at the fixed
checkpoints 10/30/50/70/85/100.  A failing collaborator raises; the
`except Exception` block shows an error box — except for `translate_text`,
whose failure path calls `sys.exit(1)` (a `SystemExit`, which
`except Exception` does not catch), terminating the process.  After
`progress(100)`, the block checks that the output file exists and shows
success or an error accordingly. -/
def appProcess (o : AppOracle) : AppResult :=
  if o.extractOk = false then
    ⟨[10], RunOutcome.errorShown⟩
  else if o.transcribeOk = false then
    ⟨[10, 30], RunOutcome.errorShown⟩
  else if o.translateOk = false then
    ⟨[10, 30, 50], RunOutcome.procExit 1⟩
  else if o.synthOk = false then
    ⟨[10, 30, 50, 70], RunOutcome.errorShown⟩
  else if o.remuxOk = false then
    ⟨[10, 30, 50, 70, 85], RunOutcome.errorShown⟩
  else if o.outputFileExists = false then
    ⟨[10, 30, 50, 70, 85, 100], RunOutcome.errorShown⟩
  else
    ⟨[10, 30, 50, 70, 85, 100], RunOutcome.success⟩

/-- Index of the last `.` (code point 46) in a file name, modelling Python
`name.rfind(".")` (returning `none` where Python returns `-1`). -/
def rfindDot : List Nat → Option Nat
  | [] => none
  | c :: cs =>
    match rfindDot cs with
    | some i => some (i + 1)
    | none => if c = 46 then some 0 else none

/-- Model of `pathlib.PurePath.suffix` on a file name: the part of the name
from its last dot onward, provided that dot is neither the leading nor the
trailing character; otherwise empty. -/
def pySuffix (name : List Nat) : List Nat :=
  match rfindDot name with
  | some i => if 0 < i ∧ i < name.length - 1 then name.drop i else []
  | none => []

/-- Model of `pathlib.PurePath.stem` on a file name: the name with its
`pySuffix` removed. -/
def pyStem (name : List Nat) : List Nat :=
  match rfindDot name with
  | some i => if 0 < i ∧ i < name.length - 1 then name.take i else name
  | none => name

/-- A filesystem path split into its parent directory (kept opaque) and its
final component. -/
structure PyPath where
  dir : List Nat
  name : List Nat
  deriving DecidableEq, Repr

/-- Embedding of the default-output computation of `main` (autotranslate.py
line 230): `input_path.parent / f"{input_path.stem}_translated_{args.language}{input_path.suffix}"`. -/
def defaultOutputPath (input : PyPath) (lang : List Nat) : PyPath :=
  ⟨input.dir, pyStem input.name ++ cp ("_translated_") ++ lang ++ pySuffix input.name⟩

/-- Embedding of the output-path selection of `main` (autotranslate.py
lines 228-232): the `-o` argument when supplied, otherwise the default. -/
def mainOutputPath (outputArg : Option PyPath) (input : PyPath) (lang : List Nat) : PyPath :=
  match outputArg with
  | some o => o
  | none => defaultOutputPath input lang

/-- A one-entry sample catalog used to instantiate catalog-dependent
theorems at a concrete input. -/
def sampleCatalog : List VoiceEntry :=
  [⟨cp ("xx-XX"), cp ("xx-XX-TestNeural")⟩]

/-- How a call to `translate_text` ends for its caller: a returned string,
a propagated exception, or process termination via `sys.exit`. -/
inductive TtOutcome
  | ret (t : List Nat)
  | raised (e : List Nat)
  | procExit (code : Nat)
  deriving DecidableEq, Repr

/-- Embedding of `VideoTranslator.translate_text` (autotranslate.py lines
66-76).  `engine` is the `GoogleTranslator(...).translate` collaborator,
which either returns the translated text or raises an exception `e`; the
`except Exception` block prints the error and calls `sys.exit(1)`. -/
def translate_text (engine : List Nat → Except (List Nat) (List Nat)) (text : List Nat) :
    TtOutcome :=
  match engine text with
  | Except.ok t => TtOutcome.ret t
  | Except.error _ => TtOutcome.procExit 1

theorem lowerCp_idem (n : Nat) : lowerCp (lowerCp n) = lowerCp n := by
  simp only [lowerCp]
  by_cases h : 65 ≤ n ∧ n ≤ 90
  · rw [if_pos h, if_neg (by omega)]
  · rw [if_neg h, if_neg h]

theorem normalizeLang_map_take (t : List Nat) (h : 2 ≤ t.length) :
    normalizeLang ((t.take 2).map lowerCp) = normalizeLang t := by
  have hlen : ((t.take 2).map lowerCp).length = 2 := by
    simp [List.length_take]
    omega
  simp only [normalizeLang, hlen]
  rw [if_pos (by omega : (2:Nat) ≤ 2), if_pos h]
  rw [List.take_of_length_le (by omega), List.map_map]
  apply List.map_congr_left
  intro a _
  exact lowerCp_idem a

theorem rfindDot_eq_none (l : List Nat) (h : 46 ∉ l) : rfindDot l = none := by
  induction l with
  | nil => rfl
  | cons c cs ih =>
    have hc : ¬(c = 46) := by
      intro hceq
      exact h (hceq ▸ List.mem_cons_self c cs)
    have hcs : 46 ∉ cs := fun hm => h (List.mem_cons_of_mem c hm)
    simp [rfindDot, ih hcs, hc]

theorem rfindDot_append_dot (s e : List Nat) (he : 46 ∉ e) :
    rfindDot (s ++ 46 :: e) = some s.length := by
  induction s with
  | nil => simp [rfindDot, rfindDot_eq_none e he]
  | cons c cs ih => simp [rfindDot, ih]

theorem stem_suffix_split (s e : List Nat) (hs : s ≠ []) (he : e ≠ []) (hde : 46 ∉ e) :
    pyStem (s ++ 46 :: e) = s ∧ pySuffix (s ++ 46 :: e) = 46 :: e := by
  have hr : rfindDot (s ++ 46 :: e) = some s.length := rfindDot_append_dot s e hde
  have hcond : 0 < s.length ∧ s.length < (s ++ 46 :: e).length - 1 := by
    constructor
    · exact List.length_pos.mpr hs
    · have h1 : 0 < e.length := List.length_pos.mpr he
      simp [List.length_append]
      omega
  constructor
  · simp only [pyStem, hr, if_pos hcond]
    exact List.take_left s (46 :: e)
  · simp only [pySuffix, hr, if_pos hcond]
    exact List.drop_left s (46 :: e)

/-- C1 counterexample: a run whose Extract stage fails ends with
`sys.exit(1)` while the temporary directory still exists on disk — the
`except` block of `translate_video` does not remove it, so the claim that
every failing run deletes its temporary directory is false. -/
theorem translate_video_fail_leaves_tempdir :
    (translate_video ⟨true, false, true, true, true, true⟩ true).outcome = RunOutcome.procExit 1 ∧
    (translate_video ⟨true, false, true, true, true, true⟩ true).tempDirExists = true := by
  decide

/-- C1 (amended): the temporary working directory is removed exactly on
successful runs; every failing run terminates via `sys.exit(1)` leaving the
temporary directory (and its contents) behind on disk. -/
theorem tempdir_removed_iff_success (o : PipeOracle) (m : Bool) :
    (translate_video o m).tempDirExists = false ↔
      (translate_video o m).outcome = RunOutcome.success := by
  rcases o with ⟨a, b, c, d, e, f⟩
  cases a <;> cases b <;> cases c <;> cases d <;> cases e <;> cases f <;> cases m <;> decide

/-- C1 witness: instantiation of the amended theorem at the all-successful
oracle. -/
theorem tempdir_removed_iff_success_inst :
    (translate_video ⟨true, true, true, true, true, true⟩ true).tempDirExists = false :=
  (tempdir_removed_iff_success ⟨true, true, true, true, true, true⟩ true).mpr (by decide)

/-- C2 counterexample: starting `translate_video` with the model not yet
loaded does not fail fast — the run loads the model itself (one `load_model`
call) and completes successfully; no `ModelNotLoadedError` exists in the
code. -/
theorem translate_video_implicit_load :
    (translate_video ⟨true, true, true, true, true, true⟩ false).outcome = RunOutcome.success ∧
    (translate_video ⟨true, true, true, true, true, true⟩ false).loadCalls = 1 := by
  decide

/-- C2 (amended): if the transcription model has not been loaded before
`translate_video` begins, the orchestrator implicitly loads it exactly once,
before the Extract stage (so a load failure aborts the run with exit status
1 before any stage starts); if the model was already loaded, no load call is
made. -/
theorem model_load_inside_pipeline (o : PipeOracle) :
    (translate_video o false).loadCalls = 1 ∧
    (translate_video o true).loadCalls = 0 ∧
    (o.loadOk = false →
      (translate_video o false).stages = [] ∧
      (translate_video o false).outcome = RunOutcome.procExit 1) := by
  rcases o with ⟨a, b, c, d, e, f⟩
  cases a <;> cases b <;> cases c <;> cases d <;> cases e <;> cases f <;> decide

/-- C2 witness: instantiation of the amended theorem at an oracle whose
model load fails. -/
theorem model_load_inside_pipeline_inst :
    (translate_video ⟨false, true, true, true, true, true⟩ false).stages = [] ∧
    (translate_video ⟨false, true, true, true, true, true⟩ false).outcome = RunOutcome.procExit 1 :=
  (model_load_inside_pipeline ⟨false, true, true, true, true, true⟩).2.2 (by decide)

/-- C3: for every language code whose normalized primary subtag is a key of
the static voice table, `resolveVoice` returns the table's voice for that
subtag, performs zero catalog fetches, and prints no warning. -/
theorem static_voice_no_fetch (catalog : List VoiceEntry) (code v : List Nat)
    (h : vmLookup (normalizeLang code) voice_map = some v) :
    resolveVoice catalog code = ⟨v, 0, false⟩ := by
  simp [resolveVoice, h]

/-- C3 witness: instantiation at the code `"es"`, which the static table
maps to `"es-ES-ElviraNeural"`. -/
theorem static_voice_no_fetch_inst :
    vmLookup (normalizeLang (cp ("es"))) voice_map = some (cp ("es-ES-ElviraNeural")) ∧
    resolveVoice sampleCatalog (cp ("es")) = ⟨cp ("es-ES-ElviraNeural"), 0, false⟩ :=
  ⟨by decide, static_voice_no_fetch sampleCatalog (cp ("es")) (cp ("es-ES-ElviraNeural")) (by decide)⟩

/-- C4: for every language code whose normalized primary subtag is absent
from the static voice table, `resolveVoice` fetches the catalog exactly
once; it returns the short name of a catalog entry whose locale starts with
the normalized code, or — when no entry matches — the fixed default English
voice together with a warning (the run continues). -/
theorem absent_code_fetches_once (catalog : List VoiceEntry) (code : List Nat)
    (h : vmLookup (normalizeLang code) voice_map = none) :
    (resolveVoice catalog code).catalogFetches = 1 ∧
    ((∃ en ∈ catalog, startsWithCp (normalizeLang code) en.locale = true ∧
        (resolveVoice catalog code).voice = en.shortName ∧
        (resolveVoice catalog code).warned = false) ∨
      ((∀ en ∈ catalog, startsWithCp (normalizeLang code) en.locale = false) ∧
        (resolveVoice catalog code).voice = defaultVoice ∧
        (resolveVoice catalog code).warned = true)) := by
  have hres : resolveVoice catalog code =
      (match catalog.filter (fun v => startsWithCp (normalizeLang code) v.locale) with
        | m :: _ => (⟨m.shortName, 1, false⟩ : ResolveResult)
        | [] => ⟨defaultVoice, 1, true⟩) := by
    simp [resolveVoice, h]
  cases hf : catalog.filter (fun v => startsWithCp (normalizeLang code) v.locale) with
  | nil =>
    rw [hf] at hres
    refine ⟨by rw [hres], Or.inr ⟨?_, by rw [hres], by rw [hres]⟩⟩
    intro en hen
    have hne := List.filter_eq_nil_iff.mp hf en hen
    simpa using hne
  | cons m rest =>
    rw [hf] at hres
    have hm : m ∈ catalog.filter (fun v => startsWithCp (normalizeLang code) v.locale) := by
      rw [hf]
      exact List.mem_cons_self m rest
    have hm2 := List.mem_filter.mp hm
    exact ⟨by rw [hres], Or.inl ⟨m, hm2.1, hm2.2, by rw [hres], by rw [hres]⟩⟩

/-- C4 witness: instantiation at the code `"xx"` (absent from the static
table) and the one-entry sample catalog, whose entry's locale matches. -/
theorem absent_code_fetches_once_inst :
    vmLookup (normalizeLang (cp ("xx"))) voice_map = none ∧
    ((resolveVoice sampleCatalog (cp ("xx"))).catalogFetches = 1 ∧
      ((∃ en ∈ sampleCatalog, startsWithCp (normalizeLang (cp ("xx"))) en.locale = true ∧
          (resolveVoice sampleCatalog (cp ("xx"))).voice = en.shortName ∧
          (resolveVoice sampleCatalog (cp ("xx"))).warned = false) ∨
        ((∀ en ∈ sampleCatalog, startsWithCp (normalizeLang (cp ("xx"))) en.locale = false) ∧
          (resolveVoice sampleCatalog (cp ("xx"))).voice = defaultVoice ∧
          (resolveVoice sampleCatalog (cp ("xx"))).warned = true))) :=
  ⟨by decide, absent_code_fetches_once sampleCatalog (cp ("xx")) (by decide)⟩

/-- C5 counterexample: the cleanup operation is a bare `shutil.rmtree` with
default arguments; invoking it when the directory no longer exists raises
`FileNotFoundError`, so cleanup is not idempotent as claimed. -/
theorem rmtree_missing_dir_raises :
    shutilRmtree false = Except.error PyErr.fileNotFoundError := rfl

/-- C5 (amended): cleanup (`shutil.rmtree` with default arguments) succeeds
when the directory exists and raises `FileNotFoundError` when it does not;
in particular, invoking it a second time after a successful run — whose
cleanup already removed the directory — raises rather than doing nothing. -/
theorem cleanup_not_idempotent (o : PipeOracle) (m : Bool) :
    shutilRmtree true = Except.ok false ∧
    ((translate_video o m).outcome = RunOutcome.success →
      shutilRmtree (translate_video o m).tempDirExists =
        Except.error PyErr.fileNotFoundError) := by
  rcases o with ⟨a, b, c, d, e, f⟩
  refine ⟨rfl, ?_⟩
  cases a <;> cases b <;> cases c <;> cases d <;> cases e <;> cases f <;> cases m <;>
    intro h <;> first | rfl | exact absurd h (by decide)

/-- C5 witness: instantiation of the amended theorem at the all-successful
oracle. -/
theorem cleanup_not_idempotent_inst :
    shutilRmtree (translate_video ⟨true, true, true, true, true, true⟩ true).tempDirExists =
      Except.error PyErr.fileNotFoundError :=
  (cleanup_not_idempotent ⟨true, true, true, true, true, true⟩ true).2 (by decide)

/-- C6: in every run of `translate_video` the sequence of started stages is
an initial segment of Extract→Transcribe→Translate→Synthesize→Remux (so no
stage runs out of order, is repeated, or is retried), and on a successful
run it is exactly that sequence. -/
theorem stages_canonical_order (o : PipeOracle) (m : Bool) :
    (∃ k : Fin 6, (translate_video o m).stages = canonicalStages.take k.val) ∧
    (translate_video o m).stages.Nodup ∧
    ((translate_video o m).outcome = RunOutcome.success →
      (translate_video o m).stages = canonicalStages) := by
  rcases o with ⟨a, b, c, d, e, f⟩
  cases a <;> cases b <;> cases c <;> cases d <;> cases e <;> cases f <;> cases m <;> decide

/-- C6 witness: instantiation at the all-successful oracle, where the
started stages are exactly the canonical five. -/
theorem stages_canonical_order_inst :
    (translate_video ⟨true, true, true, true, true, true⟩ true).stages = canonicalStages :=
  (stages_canonical_order ⟨true, true, true, true, true, true⟩ true).2.2 (by decide)

/-- C7: when no output path is supplied, `main` writes the output next to
the input: same directory, name formed of the input's stem, the literal
`"_translated_"`, the target language code, and the input's suffix. Stated
for any input name of the form `stem ++ "." ++ ext` with nonempty stem and
nonempty dot-free extension. -/
theorem default_output_path_shape (d s e lang : List Nat)
    (hs : s ≠ []) (he : e ≠ []) (hde : 46 ∉ e) :
    mainOutputPath none ⟨d, s ++ 46 :: e⟩ lang =
      ⟨d, s ++ cp ("_translated_") ++ lang ++ 46 :: e⟩ := by
  have hsplit := stem_suffix_split s e hs he hde
  show defaultOutputPath ⟨d, s ++ 46 :: e⟩ lang = _
  simp only [defaultOutputPath]
  rw [hsplit.1, hsplit.2]

/-- C7 witness: instantiation at input `/videos/input.mp4` and target
language `"es"`, yielding `/videos/input_translated_es.mp4`. -/
theorem default_output_path_shape_inst :
    cp ("input") ++ 46 :: cp ("mp4") = cp ("input.mp4") ∧
    mainOutputPath none ⟨cp ("/videos"), cp ("input") ++ 46 :: cp ("mp4")⟩ (cp ("es")) =
      ⟨cp ("/videos"), cp ("input") ++ cp ("_translated_") ++ cp ("es") ++ 46 :: cp ("mp4")⟩ :=
  ⟨by decide,
    default_output_path_shape (cp ("/videos")) (cp ("input")) (cp ("mp4")) (cp ("es"))
      (by decide) (by decide) (by decide)⟩

/-- C8: on every successful run of the app.py processing block, the values
passed to the progress bar are exactly `[10, 30, 50, 70, 85, 100]`, in that
order, one checkpoint per stage boundary, with no other values. -/
theorem progress_checkpoints (o : AppOracle)
    (h : (appProcess o).outcome = RunOutcome.success) :
    (appProcess o).progressUpdates = [10, 30, 50, 70, 85, 100] := by
  rcases o with ⟨a, b, c, d, e, f⟩
  revert h
  cases a <;> cases b <;> cases c <;> cases d <;> cases e <;> cases f <;> decide

/-- C8 witness: instantiation at the all-successful oracle. -/
theorem progress_checkpoints_inst :
    (appProcess ⟨true, true, true, true, true, true⟩).progressUpdates =
      [10, 30, 50, 70, 85, 100] :=
  progress_checkpoints ⟨true, true, true, true, true, true⟩ (by decide)

/-- C9: voice resolution depends only on the normalized primary subtag of
its input — for every code of length at least two, resolving it gives the
same result as resolving the lowercase of its first two characters. -/
theorem resolve_depends_on_primary_subtag (catalog : List VoiceEntry) (code : List Nat)
    (h : 2 ≤ code.length) :
    resolveVoice catalog code = resolveVoice catalog ((code.take 2).map lowerCp) := by
  unfold resolveVoice
  rw [normalizeLang_map_take code h]

/-- C9 witness: instantiation at the code `"ES-419"`, resolved identically
to `"es"`. -/
theorem resolve_depends_on_primary_subtag_inst :
    2 ≤ (cp ("ES-419")).length ∧
    resolveVoice sampleCatalog (cp ("ES-419")) =
      resolveVoice sampleCatalog (((cp ("ES-419")).take 2).map lowerCp) :=
  ⟨by decide, resolve_depends_on_primary_subtag sampleCatalog (cp ("ES-419")) (by decide)⟩

/-- C10: `translate_text` never surfaces an exception to its caller — it
never produces a `raised` outcome, and whenever the translation collaborator
fails it terminates the process with exit status 1, so the caller does not
regain control. -/
theorem translate_text_never_raises (engine : List Nat → Except (List Nat) (List Nat))
    (text : List Nat) :
    (∀ ex : List Nat, translate_text engine text ≠ TtOutcome.raised ex) ∧
    (∀ err : List Nat, engine text = Except.error err →
      translate_text engine text = TtOutcome.procExit 1) := by
  constructor
  · intro ex hcontra
    unfold translate_text at hcontra
    revert hcontra
    cases engine text <;> simp
  · intro err herr
    unfold translate_text
    rw [herr]

/-- C10 witness: instantiation at an engine that always fails. -/
theorem translate_text_never_raises_inst :
    translate_text (fun _ => Except.error (cp ("boom"))) (cp ("hello")) =
      TtOutcome.procExit 1 :=
  (translate_text_never_raises (fun _ => Except.error (cp ("boom"))) (cp ("hello"))).2
    (cp ("boom")) rfl

end Autotranslate
